import Mathlib

/-!
Verification of the resolver-wrapping and mirage auto-mocking layer
(`src/resolver/wrap-in-map.ts` of graphql-mocks).

The two functions under scrutiny are `wrapResolverInMap` (the resolver-map
wrapper factory) and the mirage root-query auto-resolver
(`findMatchingModelsForType` / `mirageRootQueryResolver`).

Helpers that live elsewhere in the repository (`wrapResolver`,
`getTypeAndField`, `addResolverToMap`, `embedPackOptions`, `unwrap`,
`cleanRelayConnectionName`, `coerceToList`, `coerceReturnType`,
`relayPaginateNodes`, `mirageCursorForNode`, `extractDependencies`) are not
part of the given source; they are modelled either abstractly, as components
of an environment record (their internals do not matter to the claims, which
only describe how `wrap-in-map.ts` composes them), or, when the spec pins
their behaviour, as definitions modelled from the spec.

JavaScript mutation is made explicit: the resolver-map wrapper returns
`Except (message × map-at-throw-time) map`, so a thrown error carries the
state of the resolver map at the moment of the throw; the auto-resolver is a
pure function into `Except ResolverError value`.
-/

namespace GraphqlMocks

/-- Boolean string-suffix test, mirroring JavaScript `String.prototype.endsWith`. -/
def strEndsWith (s suf : String) : Bool :=
  suf.data.isSuffixOf s.data

/-! ## The GraphQL type model (external collaborator, consumed via `unwrap`,
`.name` and `isScalarType`) -/

/-- GraphQL types as consumed by `wrap-in-map.ts`: named base types (scalars
and object-like named types), under arbitrary list / non-null wrappers. -/
inductive GraphQLType : Type where
  | scalar (name : String)
  | object (name : String)
  | list (ofType : GraphQLType)
  | nonNull (ofType : GraphQLType)
deriving Repr, DecidableEq

/-- Modelled from the spec: `unwrap` (from `src/graphql/utils`, not under the
given source) produces the "unwrapped return type" the spec speaks about — it
strips list and non-null wrappers down to the underlying named type. -/
def unwrap : GraphQLType → GraphQLType
  | .list t => unwrap t
  | .nonNull t => unwrap t
  | .scalar n => .scalar n
  | .object n => .object n

/-- Name of the underlying named type (`type.name` after `unwrap`; wrappers
carry no name of their own in GraphQL). -/
def GraphQLType.baseName : GraphQLType → String
  | .scalar n => n
  | .object n => n
  | .list t => t.baseName
  | .nonNull t => t.baseName

/-- The `graphql` library's `isScalarType` check, on the type model: true
exactly for scalar types. -/
def isScalarType : GraphQLType → Bool
  | .scalar _ => true
  | _ => false

/-! ## wrapResolverInMap (`wrap-in-map.ts` lines 5-45) -/

/-- A resolver map: type name, then field name, to an optional resolver.
`none` plays the role of an absent (undefined) entry. -/
abbrev ResolverMap (R : Type) : Type := String → String → Option R

/-- The `dependencies` member of pack options: `graphqlSchema` may be absent. -/
structure PackDependencies (S : Type) : Type where
  graphqlSchema : Option S
deriving Repr, DecidableEq

/-- Pack options as consumed by `wrapResolverInMap`: only `dependencies` is
touched. -/
structure PackOptions (S : Type) : Type where
  dependencies : PackDependencies S
deriving Repr, DecidableEq

/-- The options record passed as third argument to `wrapResolver`
(`wrap-in-map.ts` lines 28-33): the looked-up type and field, the resolver
map, and the pack options. -/
structure WrapperOptions (R S T F : Type) : Type where
  type : T
  field : F
  resolvers : ResolverMap R
  packOptions : PackOptions S

/-- Abstract environment for the helpers imported by `wrapResolverInMap` from
elsewhere in the repository (`wrapResolver` from `./wrap`, `getTypeAndField`
and `embedPackOptions` from `../utils`); their internals are irrelevant to
how `wrap-in-map.ts` composes them. -/
structure WrapEnv (R W S T F : Type) : Type where
  getTypeAndField : String → String → S → T × F
  wrapResolver : R → List W → WrapperOptions R S T F → R
  embedPackOptions : W

/-- Modelled from the spec: `addResolverToMap` with `overwrite: true` (from
`../utils`, not under the given source) installs the resolver at
`resolverMap[typeName][fieldName]`, overwriting any existing entry and
leaving every other entry alone. -/
def addResolverToMap (m : ResolverMap R) (typeName fieldName : String) (r : R) :
    ResolverMap R :=
  fun t f => if t = typeName ∧ f = fieldName then some r else m t f

/-- Error message thrown when `graphqlSchema` is missing
(`wrap-in-map.ts` lines 13-17). -/
def schemaMissingMessage : String :=
  "\"graphqlSchema\" expected on packOptions.dependencies. Specify it on the dependencies of the `pack`"

/-- Error message thrown when no resolver can be determined
(`wrap-in-map.ts` lines 20-24). -/
def noResolverMessage (typeName fieldName : String) : String :=
  "Could not determine resolver to wrap, either pass one into this `wrap`, or have an initial resolver on the resolver map at type: \"" ++ typeName ++ "\", field \"" ++ fieldName ++ "\""

/-- Shallow embedding of `wrapResolverInMap` (`wrap-in-map.ts` lines 5-45).
The returned `ResolverMapWrapper` closure becomes a function of the resolver
map and pack options. A throw is an `Except.error` carrying the message
together with the resolver map as it stands at the throw (both throws happen
before any mutation, so it is the map that was passed in); success returns
the resolver map after the `addResolverToMap` mutation. -/
def wrapResolverInMap (env : WrapEnv R W S T F) (typeName fieldName : String)
    (resolverWrappers : List W) (resolver : Option R) :
    ResolverMap R → PackOptions S → Except (String × ResolverMap R) (ResolverMap R) :=
  fun resolverMap packOptions =>
    match packOptions.dependencies.graphqlSchema with
    | none => .error (schemaMissingMessage, resolverMap)
    | some schema =>
      match resolver.orElse (fun _ => resolverMap typeName fieldName) with
      | none => .error (noResolverMessage typeName fieldName, resolverMap)
      | some r =>
        let wrappers := resolverWrappers ++ [env.embedPackOptions]
        let tf := env.getTypeAndField typeName fieldName schema
        let wrappedResolver := env.wrapResolver r wrappers
          { type := tf.1, field := tf.2, resolvers := resolverMap, packOptions := packOptions }
        .ok (addResolverToMap resolverMap typeName fieldName wrappedResolver)

/-! ## The mirage auto-resolver (`wrap-in-map.ts` lines 46-162) -/

/-- GraphQL resolver info as consumed by `mirageRootQueryResolver`: the
field's return type, the field name, and the parent type's name. -/
structure FieldInfo : Type where
  returnType : GraphQLType
  fieldName : String
  parentTypeName : String
deriving Repr, DecidableEq

/-- A field filter registered on the mirage mapper: it receives the
list-coerced result, the parent, the arguments, the context and the info, and
may throw (`Except.error`). -/
abbrev FieldFilter (V A C : Type) : Type :=
  List V → V → A → C → FieldInfo → Except String V

/-- The mirage mapper dependency: a manual type-name mapping and a field
filter registry keyed by `[parentTypeName, fieldName]`. -/
structure MirageGraphQLMapper (V A C : Type) : Type where
  findMatchForType : String → Option String
  findFieldFilter : String × String → Option (FieldFilter V A C)

/-- The mirage server dependency, as consumed through
`mirageServer.schema`: `collectionForType` either throws or returns a value
whose JavaScript `Boolean(...)` is recorded, and `allModels` is
`schema.all(modelName)?.models` — it may throw, and may produce no model
array (`none`) when `schema.all` returns a nullish value. -/
structure MirageServer (V : Type) : Type where
  collectionForType : String → Except String Bool
  allModels : Option String → Except String (Option (List V))

/-- Abstract environment for the value-level helpers imported by the
auto-resolver from elsewhere in the repository (`coerceToList` and
`coerceReturnType` from `../../resolver/utils`, `relayPaginateNodes` from
`../../relay/utils`, `mirageCursorForNode` from `./utils`), together with the
JavaScript null value and the embedding of a model array as a value. -/
structure MirageResolverEnv (V A : Type) : Type where
  vnull : V
  listVal : List V → V
  coerceToList : V → Option (List V)
  coerceReturnType : V → FieldInfo → Except String V
  relayPaginateNodes : List V → A → (V → String) → Except String V
  mirageCursorForNode : V → String

/-- The `RootQueryResolverMatch` record returned by
`findMatchingModelsForType` (`wrap-in-map.ts` lines 92-96). -/
structure RootQueryResolverMatch (V : Type) : Type where
  models : Option (List V)
  matchedModelName : Option String
  modelNameCandidates : List String
deriving Repr, DecidableEq

/-- The `AutoResolverErrorMeta` accumulated by `mirageRootQueryResolver`
(`wrap-in-map.ts` lines 109-118); `matched` stands for the `match` member
(a Lean keyword), set once a model match has been computed. -/
structure AutoResolverErrorMeta (V A C : Type) : Type where
  parent : V
  args : A
  info : FieldInfo
  context : C
  autoResolverType : String
  isRelay : Bool
  usedFieldFilter : Bool
  hasFieldFilter : Bool
  matched : Option (RootQueryResolverMatch V)

/-- Errors escaping `mirageRootQueryResolver`: either a plain `Error`
(carrying its message) or an `AutoResolverError` wrapping an inner error
message together with the accumulated metadata. -/
inductive ResolverError (V A C : Type) : Type where
  | plain (msg : String)
  | auto (msg : String) (meta : AutoResolverErrorMeta V A C)

/-- JavaScript `filter(Boolean)` on an optional string candidate: both an
absent candidate and the empty string are falsy and are dropped. -/
def jsTruthyStr : Option String → Option String
  | none => none
  | some s => if s = "" then none else some s

/-- Modelled from the spec: `cleanRelayConnectionName` (from
`./utils` of the mirage resolver directory, not under the given source)
produces the relay-connection-cleaned type name — the candidate used when
"a model exists for a relay type name": the name with its trailing
`Connection` suffix removed, and nothing for a name that is not a relay
connection type name. -/
def cleanRelayConnectionName (name : String) : Option String :=
  if strEndsWith name "Connection" then some (name.dropRight "Connection".length)
  else none

/-- The `mappedModelName` expression (`wrap-in-map.ts` line 65):
`mirageMapper && type.name && mirageMapper.findMatchForType(type.name)` —
absent mapper or falsy (empty) type name short-circuits to a falsy value. -/
def mappedNameForType (mapper : Option (MirageGraphQLMapper V A C)) (name : String) :
    Option String :=
  match mapper with
  | none => none
  | some mm => if name = "" then none else mm.findMatchForType name

/-- The ordered model-name candidate list (`wrap-in-map.ts` line 71):
`[mappedModelName, cleanRelayConnectionName(type.name), type.name].filter(Boolean)`
built on the unwrapped type. -/
def modelNameCandidatesFor (mapper : Option (MirageGraphQLMapper V A C))
    (type0 : GraphQLType) : List String :=
  [mappedNameForType mapper (unwrap type0).baseName,
   cleanRelayConnectionName (unwrap type0).baseName,
   some (unwrap type0).baseName].filterMap jsTruthyStr

/-- The candidate test inside `find` (`wrap-in-map.ts` lines 73-81):
`Boolean(mirageServer.schema.collectionForType(candidate))`, where any throw
(including member access on an absent server) is caught and counts as no
match. -/
def collectionCheck (server : Option (MirageServer V)) (candidate : String) : Bool :=
  match server with
  | none => false
  | some s =>
    match s.collectionForType candidate with
    | .ok b => b
    | .error _ => false

/-- The models lookup (`wrap-in-map.ts` line 85):
`mirageServer.schema.all(matchedModelName)?.models`, where an absent server
throws on member access. -/
def allModelsCall (server : Option (MirageServer V)) (matched : Option String) :
    Except String (Option (List V)) :=
  match server with
  | none => .error "Cannot read properties of undefined"
  | some s => s.allModels matched

/-- Rendering of an optional model name inside a template literal: JavaScript
prints `undefined` for an absent value. -/
def showOptName : Option String → String
  | none => "undefined"
  | some s => s

/-- Error message wrapping a failed models lookup
(`wrap-in-map.ts` lines 87-89). -/
def lookupErrorMessage (matched : Option String) (e : String) : String :=
  "Unable to look up collection for " ++ showOptName matched ++ " on mirage schema, received error:\n" ++ e

/-- Shallow embedding of `findMatchingModelsForType`
(`wrap-in-map.ts` lines 58-97): unwrap the type, build the ordered candidate
list, select the first candidate with a mirage collection, and look up its
models — a throw in the lookup is re-thrown with the wrapping message. -/
def findMatchingModelsForType (mapper : Option (MirageGraphQLMapper V A C))
    (server : Option (MirageServer V)) (type0 : GraphQLType) :
    Except String (RootQueryResolverMatch V) :=
  let modelNameCandidates := modelNameCandidatesFor mapper type0
  let matchedModelName := modelNameCandidates.find? (collectionCheck server)
  match allModelsCall server matchedModelName with
  | .error e => .error (lookupErrorMessage matchedModelName e)
  | .ok models =>
    .ok { models := models, matchedModelName := matchedModelName,
          modelNameCandidates := modelNameCandidates }

/-- The `isRelayPaginated` test (`wrap-in-map.ts` line 101):
`unwrap(returnType)?.name?.endsWith('Connection')`. -/
def isRelayFor (info : FieldInfo) : Bool :=
  strEndsWith (unwrap info.returnType).baseName "Connection"

/-- The field-filter lookup (`wrap-in-map.ts` line 107):
`mirageMapper?.findFieldFilter([parentType.name, fieldName])`. -/
def fieldFilterFor (mapper : Option (MirageGraphQLMapper V A C)) (info : FieldInfo) :
    Option (FieldFilter V A C) :=
  mapper.bind fun mm => mm.findFieldFilter (info.parentTypeName, info.fieldName)

/-- The initial `errorMeta` record (`wrap-in-map.ts` lines 109-118). -/
def initialErrorMeta (mapper : Option (MirageGraphQLMapper V A C))
    (parent : V) (args : A) (context : C) (info : FieldInfo) :
    AutoResolverErrorMeta V A C :=
  { parent := parent, args := args, info := info, context := context,
    autoResolverType := "ROOT_TYPE",
    isRelay := isRelayFor info,
    usedFieldFilter := false,
    hasFieldFilter := (fieldFilterFor mapper info).isSome,
    matched := none }

/-- Error message thrown for a scalar root-query field without a field filter
(`wrap-in-map.ts` lines 128-134). -/
def scalarAutoResolveMessage (info : FieldInfo) : String :=
  "Scalars cannot be auto-resolved with mirage from the root query type. " ++ info.parentTypeName ++ "." ++ info.fieldName ++ " resolves to a scalar, or a list, of type " ++ (unwrap info.returnType).baseName ++ ". Try adding a field filter for this field and returning a value for this field."

/-- The result of `result = mirageMapper match.models` assignment
(`wrap-in-map.ts` line 144): the model array as a value, or the
null-like value when `schema.all(...)?.models` produced nothing. -/
def modelsValue (env : MirageResolverEnv V A) : Option (List V) → V
  | none => env.vnull
  | some ms => env.listVal ms

/-- Lifting a possibly-throwing helper call inside the `try` block: a throw
becomes an `AutoResolverError` carrying the metadata as accumulated at that
point (`wrap-in-map.ts` lines 159-161). -/
def exceptAuto (e : Except String V) (meta : AutoResolverErrorMeta V A C) :
    Except (ResolverError V A C) V :=
  match e with
  | .ok v => .ok v
  | .error msg => .error (.auto msg meta)

/-- The field-filter step of the `try` block (`wrap-in-map.ts` lines
148-151): when a filter is registered it is applied to the list-coerced
result (defaulting to the empty list), with parent, args, context and info;
on success the filter's value replaces the result and `usedFieldFilter` is
recorded, while a throw carries the metadata from before the assignment. -/
def applyFieldFilterStage (env : MirageResolverEnv V A)
    (fieldFilter : Option (FieldFilter V A C)) (parent : V) (args : A) (context : C)
    (info : FieldInfo) (result : V) (meta : AutoResolverErrorMeta V A C) :
    Except (ResolverError V A C) (V × AutoResolverErrorMeta V A C) :=
  match fieldFilter with
  | none => .ok (result, meta)
  | some filt =>
    match filt ((env.coerceToList result).getD []) parent args context info with
    | .error e => .error (.auto e meta)
    | .ok r => .ok (r, { meta with usedFieldFilter := true })

/-- The pagination / return-type coercion step of the `try` block
(`wrap-in-map.ts` lines 153-158): on a relay-paginated field the result is
list-coerced and fed to `relayPaginateNodes` with the arguments and
`mirageCursorForNode` — `return nodes && relayPaginateNodes(...)` yields the
null-like value when the coercion produces nothing; otherwise the result goes
through `coerceReturnType`. -/
def afterFilter (env : MirageResolverEnv V A) (isRelay : Bool) (args : A)
    (info : FieldInfo) (result : V) (meta : AutoResolverErrorMeta V A C) :
    Except (ResolverError V A C) V :=
  if isRelay then
    match env.coerceToList result with
    | none => .ok env.vnull
    | some nodes => exceptAuto (env.relayPaginateNodes nodes args env.mirageCursorForNode) meta
  else
    exceptAuto (env.coerceReturnType result info) meta

/-- The whole `try` block (`wrap-in-map.ts` lines 147-161): the field-filter
step followed by the pagination / coercion step. -/
def tryStage (env : MirageResolverEnv V A) (fieldFilter : Option (FieldFilter V A C))
    (isRelay : Bool) (parent : V) (args : A) (context : C) (info : FieldInfo)
    (result : V) (meta : AutoResolverErrorMeta V A C) :
    Except (ResolverError V A C) V :=
  match applyFieldFilterStage env fieldFilter parent args context info result meta with
  | .error err => .error err
  | .ok (r, meta2) => afterFilter env isRelay args info r meta2

/-- Shallow embedding of `mirageRootQueryResolver`
(`wrap-in-map.ts` lines 99-162). The `extractDependencies(context, ...,
{ required: false })` call is modelled by the two optional dependency
arguments; the context value itself is only threaded through to field
filters and the metadata. A scalar return type without a field filter throws
(plainly, outside the `try` block); a non-scalar return type looks up the
model match, records it on the metadata and feeds the models to the `try`
block; a scalar with a field filter feeds the null result to the `try`
block directly. -/
def mirageRootQueryResolver (env : MirageResolverEnv V A)
    (mapper : Option (MirageGraphQLMapper V A C)) (server : Option (MirageServer V))
    (parent : V) (args : A) (context : C) (info : FieldInfo) :
    Except (ResolverError V A C) V :=
  let fieldFilter := fieldFilterFor mapper info
  let errorMeta := initialErrorMeta mapper parent args context info
  let hasScalarInReturnType := isScalarType (unwrap info.returnType)
  if hasScalarInReturnType && fieldFilter.isNone then
    .error (.plain (scalarAutoResolveMessage info))
  else if hasScalarInReturnType then
    tryStage env fieldFilter (isRelayFor info) parent args context info env.vnull errorMeta
  else
    match findMatchingModelsForType mapper server info.returnType with
    | .error e => .error (.plain e)
    | .ok m =>
      tryStage env fieldFilter (isRelayFor info) parent args context info
        (modelsValue env m.models) { errorMeta with matched := some m }

/-! ## Concrete fixtures used by the witnesses and counterexamples
(all type parameters instantiated at `Nat`) -/

/-- Concrete wrap environment for witnesses. -/
def natWrapEnv : WrapEnv Nat Nat Nat Nat Nat :=
  { getTypeAndField := fun _ _ s => (s, s + 1),
    wrapResolver := fun r ws _ => r * 1000 + ws.length,
    embedPackOptions := 77 }

/-- Concrete resolver map for witnesses: a single entry at
`Query.hello`. -/
def natMap : ResolverMap Nat :=
  fun t f => if t = "Query" ∧ f = "hello" then some 7 else none

/-- Pack options with a schema present. -/
def packWithSchema : PackOptions Nat := ⟨⟨some 5⟩⟩

/-- Pack options with the schema absent. -/
def packNoSchema : PackOptions Nat := ⟨⟨none⟩⟩

/-- Concrete mirage resolver environment for witnesses. -/
def natEnv : MirageResolverEnv Nat Nat :=
  { vnull := 0,
    listVal := fun l => 100 + l.length,
    coerceToList := fun v => if v = 0 then none else some (List.replicate 2 v),
    coerceReturnType := fun v _ => .ok (v + 1),
    relayPaginateNodes := fun nodes _ _ => .ok (200 + nodes.length),
    mirageCursorForNode := fun _ => "cursor" }

/-- Concrete field filter for witnesses. -/
def natFilter : FieldFilter Nat Nat Nat :=
  fun nodes _ _ _ _ => .ok (50 + nodes.length)

/-- Concrete mirage mapper for witnesses: maps the `Person` type to the
`people` model and registers a field filter on `Query.people`. -/
def natMapper : MirageGraphQLMapper Nat Nat Nat :=
  { findMatchForType := fun n => if n = "Person" then some "people" else none,
    findFieldFilter := fun key => if key = ("Query", "people") then some natFilter else none }

/-- Concrete mirage server for witnesses: collections exist for `people` and
`Friends`. -/
def natServer : MirageServer Nat :=
  { collectionForType := fun n =>
      if n = "people" || n = "Friends" then .ok true else .error "no collection",
    allModels := fun m? =>
      match m? with
      | some "people" => .ok (some [1, 2, 3])
      | some "Friends" => .ok (some [4, 4])
      | some _ => .error "unknown model"
      | none => .error "undefined model" }

/-- Info for a root query field returning a plain object type. -/
def personInfo : FieldInfo :=
  { returnType := .object "Person", fieldName := "people", parentTypeName := "Query" }

/-- Info for a root query field returning a relay connection object type. -/
def connInfo : FieldInfo :=
  { returnType := .object "FriendsConnection", fieldName := "friends", parentTypeName := "Query" }

/-- Mirage resolver environment for the scalar claims: the return-type
coercion and the relay pagination produce distinguishable constants. -/
def env9 : MirageResolverEnv Nat Nat :=
  { vnull := 0,
    listVal := fun l => 100 + l.length,
    coerceToList := fun v => if v = 5 then some [5] else none,
    coerceReturnType := fun _ _ => .ok 9,
    relayPaginateNodes := fun _ _ _ => .ok 7,
    mirageCursorForNode := fun _ => "" }

/-- Field filter for the scalar claims: always returns `5`. -/
def filter9 : FieldFilter Nat Nat Nat :=
  fun _ _ _ _ _ => .ok 5

/-- Mirage mapper for the scalar claims: registers `filter9` on
`Query.total`. -/
def mapper9 : MirageGraphQLMapper Nat Nat Nat :=
  { findMatchForType := fun _ => none,
    findFieldFilter := fun key => if key = ("Query", "total") then some filter9 else none }

/-- Info for a root query field returning a custom scalar whose name ends in
`Connection`. -/
def scalarConnInfo : FieldInfo :=
  { returnType := .scalar "FooConnection", fieldName := "total", parentTypeName := "Query" }

/-- Info for a root query field returning an ordinary scalar. -/
def scalarIntInfo : FieldInfo :=
  { returnType := .scalar "Int", fieldName := "total", parentTypeName := "Query" }

/-! ## Theorems for the `wrapResolverInMap` claims -/

/-- C1: whenever `graphqlSchema` is present on the pack dependencies and a
resolver is determinable (the passed resolver, falling back to the existing
map entry), the wrapper returned by `wrapResolverInMap` installs at
`resolverMap[typeName][fieldName]` the resolver obtained by wrapping the
chosen resolver with the supplied wrappers followed by `embedPackOptions` as
the final wrapper, overwriting any existing entry, and returns the resolver
map. -/
theorem wrapResolverInMap_installs {R W S T F : Type} (env : WrapEnv R W S T F)
    (typeName fieldName : String) (ws : List W) (resolver : Option R)
    (m : ResolverMap R) (p : PackOptions S) (schema : S)
    (hschema : p.dependencies.graphqlSchema = some schema)
    (r : R) (hr : resolver.orElse (fun _ => m typeName fieldName) = some r) :
    wrapResolverInMap env typeName fieldName ws resolver m p =
      .ok (addResolverToMap m typeName fieldName
        (env.wrapResolver r (ws ++ [env.embedPackOptions])
          { type := (env.getTypeAndField typeName fieldName schema).1,
            field := (env.getTypeAndField typeName fieldName schema).2,
            resolvers := m, packOptions := p })) := by
  simp only [wrapResolverInMap, hschema, hr]

/-- Witness for C1: with the schema present and the chosen resolver taken
from the existing `Query.hello` entry, the wrapper installs the wrapped
resolver and returns the map. -/
theorem wrapResolverInMap_installs_witness :
    wrapResolverInMap natWrapEnv "Query" "hello" [] none natMap packWithSchema =
      .ok (addResolverToMap natMap "Query" "hello"
        (natWrapEnv.wrapResolver 7 ([] ++ [natWrapEnv.embedPackOptions])
          { type := (natWrapEnv.getTypeAndField "Query" "hello" 5).1,
            field := (natWrapEnv.getTypeAndField "Query" "hello" 5).2,
            resolvers := natMap, packOptions := packWithSchema })) :=
  wrapResolverInMap_installs natWrapEnv "Query" "hello" [] none natMap
    packWithSchema 5 rfl 7 rfl

/-- C6: whenever `graphqlSchema` is absent from the pack dependencies, the
wrapper returned by `wrapResolverInMap` throws, and the resolver map at the
moment of the throw is exactly the map that was passed in — no entry has been
added, removed or overwritten. -/
theorem wrapResolverInMap_missingSchema {R W S T F : Type} (env : WrapEnv R W S T F)
    (typeName fieldName : String) (ws : List W) (resolver : Option R)
    (m : ResolverMap R) (p : PackOptions S)
    (hschema : p.dependencies.graphqlSchema = none) :
    wrapResolverInMap env typeName fieldName ws resolver m p =
      .error (schemaMissingMessage, m) := by
  simp only [wrapResolverInMap, hschema]

/-- Witness for C6: with the schema absent, the wrapper throws the
missing-schema error carrying the untouched map. -/
theorem wrapResolverInMap_missingSchema_witness :
    wrapResolverInMap natWrapEnv "Query" "hello" [] none natMap packNoSchema =
      .error (schemaMissingMessage, natMap) :=
  wrapResolverInMap_missingSchema natWrapEnv "Query" "hello" [] none natMap
    packNoSchema rfl

/-- C7: given a present schema, the wrapper returned by `wrapResolverInMap`
throws the could-not-determine-resolver error (leaving the map untouched, as
the error carries the map as passed in) exactly when no resolver was passed
in and the map has no entry at `[typeName][fieldName]`; when either exists,
this error is not raised. -/
theorem wrapResolverInMap_noResolver_iff {R W S T F : Type} (env : WrapEnv R W S T F)
    (typeName fieldName : String) (ws : List W) (resolver : Option R)
    (m : ResolverMap R) (p : PackOptions S) (schema : S)
    (hschema : p.dependencies.graphqlSchema = some schema) :
    (wrapResolverInMap env typeName fieldName ws resolver m p =
        .error (noResolverMessage typeName fieldName, m)) ↔
      (resolver = none ∧ m typeName fieldName = none) := by
  simp only [wrapResolverInMap, hschema]
  cases resolver with
  | some r => simp [Option.orElse]
  | none =>
    cases hm : m typeName fieldName with
    | some r => simp [Option.orElse, hm]
    | none => simp [Option.orElse, hm]

/-- Witness for C7: at `Query.nope`, with no resolver passed and no map
entry, the wrapper throws the could-not-determine-resolver error. -/
theorem wrapResolverInMap_noResolver_iff_witness :
    (wrapResolverInMap natWrapEnv "Query" "nope" [] none natMap packWithSchema =
        .error (noResolverMessage "Query" "nope", natMap)) ↔
      ((none : Option Nat) = none ∧ natMap "Query" "nope" = none) :=
  wrapResolverInMap_noResolver_iff natWrapEnv "Query" "nope" [] none natMap
    packWithSchema 5 rfl

/-- C10: on a successful invocation of the wrapper returned by
`wrapResolverInMap`, every entry of the returned resolver map other than the
one at `[typeName][fieldName]` agrees with the map that was passed in — only
that one entry is modified (the returned map is the passed-in map after its
in-place update). -/
theorem wrapResolverInMap_frame {R W S T F : Type} (env : WrapEnv R W S T F)
    (typeName fieldName : String) (ws : List W) (resolver : Option R)
    (m : ResolverMap R) (p : PackOptions S) (schema : S)
    (hschema : p.dependencies.graphqlSchema = some schema)
    (r : R) (hr : resolver.orElse (fun _ => m typeName fieldName) = some r)
    (m2 : ResolverMap R)
    (hm2 : wrapResolverInMap env typeName fieldName ws resolver m p = .ok m2) :
    ∀ t f, ¬(t = typeName ∧ f = fieldName) → m2 t f = m t f := by
  simp only [wrapResolverInMap, hschema, hr] at hm2
  injection hm2 with hmap
  intro t f hne
  rw [← hmap]
  simp only [addResolverToMap]
  rw [if_neg hne]

/-- Witness for C10: after a successful wrap at `Query.hello`, the entry at
`Mutation.other` is unchanged. -/
theorem wrapResolverInMap_frame_witness :
    addResolverToMap natMap "Query" "hello"
        (natWrapEnv.wrapResolver 7 ([] ++ [natWrapEnv.embedPackOptions])
          { type := (natWrapEnv.getTypeAndField "Query" "hello" 5).1,
            field := (natWrapEnv.getTypeAndField "Query" "hello" 5).2,
            resolvers := natMap, packOptions := packWithSchema })
        "Mutation" "other" =
      natMap "Mutation" "other" :=
  wrapResolverInMap_frame natWrapEnv "Query" "hello" [] none natMap
    packWithSchema 5 rfl 7 rfl _ rfl "Mutation" "other" (by decide)

/-! ## Theorems for the mirage auto-resolver claims -/

/-- C2: `findMatchingModelsForType` builds the model-name candidate list in
the fixed preference order — manual mapper match, relay-connection-cleaned
type name, the type name itself — drops falsy candidates
(`modelNameCandidatesFor` is by definition that ordered, truthiness-filtered
list), selects as the matched name the first candidate for which the mirage
schema has a collection (`List.find?`), and returns the models of that first
matching candidate. -/
theorem findMatchingModelsForType_preference {V A C : Type}
    (mapper : Option (MirageGraphQLMapper V A C)) (server : Option (MirageServer V))
    (type0 : GraphQLType) (ms : Option (List V))
    (h : allModelsCall server
          ((modelNameCandidatesFor mapper type0).find? (collectionCheck server)) = .ok ms) :
    findMatchingModelsForType mapper server type0 =
      .ok { models := ms,
            matchedModelName :=
              (modelNameCandidatesFor mapper type0).find? (collectionCheck server),
            modelNameCandidates := modelNameCandidatesFor mapper type0 } := by
  simp only [findMatchingModelsForType, h]

/-- Witness for C2: for the `Person` return type, with a manual mapping to
`people`, the candidates are `["people", "Person"]` in preference order and
the models of the first matching candidate `people` are returned. -/
theorem findMatchingModelsForType_preference_witness :
    findMatchingModelsForType (some natMapper) (some natServer) (.object "Person") =
      .ok { models := some [1, 2, 3],
            matchedModelName :=
              (modelNameCandidatesFor (some natMapper) (.object "Person")).find?
                (collectionCheck (some natServer)),
            modelNameCandidates := modelNameCandidatesFor (some natMapper) (.object "Person") } :=
  findMatchingModelsForType_preference (some natMapper) (some natServer)
    (.object "Person") (some [1, 2, 3]) rfl

/-- C3: for a root query field whose unwrapped return type is not a scalar,
`mirageRootQueryResolver` resolves the field from the mirage mock data layer:
the result it carries into the field-filter / pagination / coercion stage is
the model collection matched to the field's return type, with the match
recorded on the error metadata. -/
theorem mirageRootQueryResolver_models {V A C : Type} (env : MirageResolverEnv V A)
    (mapper : Option (MirageGraphQLMapper V A C)) (server : Option (MirageServer V))
    (parent : V) (args : A) (context : C) (info : FieldInfo)
    (hscalar : isScalarType (unwrap info.returnType) = false)
    (m : RootQueryResolverMatch V)
    (hm : findMatchingModelsForType mapper server info.returnType = .ok m) :
    mirageRootQueryResolver env mapper server parent args context info =
      tryStage env (fieldFilterFor mapper info) (isRelayFor info) parent args context info
        (modelsValue env m.models)
        { initialErrorMeta mapper parent args context info with matched := some m } := by
  simp [mirageRootQueryResolver, hscalar, hm]

/-- Witness for C3: the `Query.people` field (return type `Person`) is fed
the matched `people` models into the try stage. -/
theorem mirageRootQueryResolver_models_witness :
    mirageRootQueryResolver natEnv (some natMapper) (some natServer) 0 0 0 personInfo =
      tryStage natEnv (fieldFilterFor (some natMapper) personInfo) (isRelayFor personInfo)
        0 0 0 personInfo
        (modelsValue natEnv (some [1, 2, 3]))
        { initialErrorMeta (some natMapper) 0 0 0 personInfo with
            matched := some { models := some [1, 2, 3], matchedModelName := some "people",
                              modelNameCandidates := ["people", "Person"] } } :=
  mirageRootQueryResolver_models natEnv (some natMapper) (some natServer) 0 0 0 personInfo
    rfl _ rfl

/-- C4: for a root query field with a registered field filter (keyed by
parent type name and field name on the mirage mapper), after the model match
`mirageRootQueryResolver` applies the filter to the list-coerced intermediate
result — the empty list when the coercion yields nothing — passing parent,
args, context and info; the filter's return value replaces the result used by
the subsequent pagination and return-type coercion steps (`afterFilter`),
with `usedFieldFilter` recorded, while a filter throw carries the metadata
from before that assignment. -/
theorem mirageRootQueryResolver_fieldFilter {V A C : Type} (env : MirageResolverEnv V A)
    (mapper : Option (MirageGraphQLMapper V A C)) (server : Option (MirageServer V))
    (parent : V) (args : A) (context : C) (info : FieldInfo)
    (hscalar : isScalarType (unwrap info.returnType) = false)
    (m : RootQueryResolverMatch V)
    (hm : findMatchingModelsForType mapper server info.returnType = .ok m)
    (filt : FieldFilter V A C) (hf : fieldFilterFor mapper info = some filt) :
    mirageRootQueryResolver env mapper server parent args context info =
      (match filt ((env.coerceToList (modelsValue env m.models)).getD [])
          parent args context info with
       | .error e =>
         .error (.auto e { initialErrorMeta mapper parent args context info with
                            matched := some m })
       | .ok r =>
         afterFilter env (isRelayFor info) args info r
           { initialErrorMeta mapper parent args context info with
               matched := some m, usedFieldFilter := true }) := by
  cases hres : filt ((env.coerceToList (modelsValue env m.models)).getD [])
      parent args context info with
  | error e =>
    simp [mirageRootQueryResolver, hscalar, hm, hf, tryStage, applyFieldFilterStage, hres]
  | ok r =>
    simp [mirageRootQueryResolver, hscalar, hm, hf, tryStage, applyFieldFilterStage, hres]

/-- Witness for C4: on `Query.people` the registered filter receives the
list-coerced `people` models and its value feeds the coercion stage. -/
theorem mirageRootQueryResolver_fieldFilter_witness :
    mirageRootQueryResolver natEnv (some natMapper) (some natServer) 0 0 0 personInfo =
      (match natFilter ((natEnv.coerceToList (modelsValue natEnv (some [1, 2, 3]))).getD [])
          0 0 0 personInfo with
       | .error e =>
         .error (.auto e { initialErrorMeta (some natMapper) 0 0 0 personInfo with
                            matched := some { models := some [1, 2, 3],
                                              matchedModelName := some "people",
                                              modelNameCandidates := ["people", "Person"] } })
       | .ok r =>
         afterFilter natEnv (isRelayFor personInfo) 0 personInfo r
           { initialErrorMeta (some natMapper) 0 0 0 personInfo with
               matched := some { models := some [1, 2, 3],
                                 matchedModelName := some "people",
                                 modelNameCandidates := ["people", "Person"] },
               usedFieldFilter := true }) :=
  mirageRootQueryResolver_fieldFilter natEnv (some natMapper) (some natServer)
    0 0 0 personInfo rfl _ rfl natFilter rfl

/-- C5: once the model match and the field-filter stage have produced the
intermediate result, `mirageRootQueryResolver` branches on whether the
unwrapped return type's name ends in `Connection`: a Connection field has its
result coerced to a list of nodes and returns `relayPaginateNodes` applied to
those nodes with the field arguments and `mirageCursorForNode`, while a
non-Connection field is returned through `coerceReturnType`. -/
theorem mirageRootQueryResolver_relayCoercion {V A C : Type} (env : MirageResolverEnv V A)
    (mapper : Option (MirageGraphQLMapper V A C)) (server : Option (MirageServer V))
    (parent : V) (args : A) (context : C) (info : FieldInfo)
    (hscalar : isScalarType (unwrap info.returnType) = false)
    (m : RootQueryResolverMatch V)
    (hm : findMatchingModelsForType mapper server info.returnType = .ok m)
    (r : V) (meta2 : AutoResolverErrorMeta V A C)
    (hstage : applyFieldFilterStage env (fieldFilterFor mapper info) parent args context info
        (modelsValue env m.models)
        { initialErrorMeta mapper parent args context info with matched := some m } =
      .ok (r, meta2)) :
    (isRelayFor info = true → ∀ nodes, env.coerceToList r = some nodes →
       mirageRootQueryResolver env mapper server parent args context info =
         exceptAuto (env.relayPaginateNodes nodes args env.mirageCursorForNode) meta2) ∧
    (isRelayFor info = false →
       mirageRootQueryResolver env mapper server parent args context info =
         exceptAuto (env.coerceReturnType r info) meta2) := by
  have hmain : mirageRootQueryResolver env mapper server parent args context info =
      afterFilter env (isRelayFor info) args info r meta2 := by
    simp [mirageRootQueryResolver, hscalar, hm, tryStage, hstage]
  constructor
  · intro hrelay nodes hnodes
    rw [hmain]
    simp [afterFilter, hrelay, hnodes]
  · intro hrelay
    rw [hmain]
    simp [afterFilter, hrelay]

/-- Witness for C5: `Query.friends` returns `FriendsConnection`, so the
resolver returns the relay pagination of the coerced nodes of the matched
`Friends` models. -/
theorem mirageRootQueryResolver_relayCoercion_witness :
    mirageRootQueryResolver natEnv (some natMapper) (some natServer) 0 0 0 connInfo =
      exceptAuto (natEnv.relayPaginateNodes (List.replicate 2 102) 0 natEnv.mirageCursorForNode)
        { initialErrorMeta (some natMapper) 0 0 0 connInfo with
            matched := some { models := some [4, 4], matchedModelName := some "Friends",
                              modelNameCandidates := ["Friends", "FriendsConnection"] } } :=
  (mirageRootQueryResolver_relayCoercion natEnv (some natMapper) (some natServer)
      0 0 0 connInfo rfl _ rfl _ _ rfl).1 rfl (List.replicate 2 102) rfl

/-- C8: errors thrown inside the `try` block — by the field filter, by the
relay pagination, or by the return-type coercion — are re-thrown wrapped in
an `AutoResolverError` carrying the accumulated metadata (parent, args, info,
context, `ROOT_TYPE`, relay flag, field-filter flags, and the model match
once computed), while errors raised earlier, during the model-collection
lookup, propagate as plain errors without this wrapping. -/
theorem mirageRootQueryResolver_errorWrapping {V A C : Type} (env : MirageResolverEnv V A)
    (mapper : Option (MirageGraphQLMapper V A C)) (server : Option (MirageServer V))
    (parent : V) (args : A) (context : C) (info : FieldInfo) :
    (∀ e, isScalarType (unwrap info.returnType) = false →
        findMatchingModelsForType mapper server info.returnType = .error e →
        mirageRootQueryResolver env mapper server parent args context info =
          .error (.plain e)) ∧
    (∀ (m : RootQueryResolverMatch V) (filt : FieldFilter V A C) e,
        isScalarType (unwrap info.returnType) = false →
        findMatchingModelsForType mapper server info.returnType = .ok m →
        fieldFilterFor mapper info = some filt →
        filt ((env.coerceToList (modelsValue env m.models)).getD [])
            parent args context info = .error e →
        mirageRootQueryResolver env mapper server parent args context info =
          .error (.auto e { initialErrorMeta mapper parent args context info with
                              matched := some m })) ∧
    (∀ (m : RootQueryResolverMatch V) (r : V) (meta2 : AutoResolverErrorMeta V A C) e,
        isScalarType (unwrap info.returnType) = false →
        findMatchingModelsForType mapper server info.returnType = .ok m →
        applyFieldFilterStage env (fieldFilterFor mapper info) parent args context info
            (modelsValue env m.models)
            { initialErrorMeta mapper parent args context info with matched := some m } =
          .ok (r, meta2) →
        ((isRelayFor info = true → ∀ nodes, env.coerceToList r = some nodes →
            env.relayPaginateNodes nodes args env.mirageCursorForNode = .error e →
            mirageRootQueryResolver env mapper server parent args context info =
              .error (.auto e meta2)) ∧
         (isRelayFor info = false →
            env.coerceReturnType r info = .error e →
            mirageRootQueryResolver env mapper server parent args context info =
              .error (.auto e meta2)))) := by
  refine ⟨?_, ?_, ?_⟩
  · intro e hscalar hm
    simp [mirageRootQueryResolver, hscalar, hm]
  · intro m filt e hscalar hm hf hfe
    simp [mirageRootQueryResolver, hscalar, hm, hf, tryStage, applyFieldFilterStage, hfe]
  · intro m r meta2 e hscalar hm hstage
    have hmain : mirageRootQueryResolver env mapper server parent args context info =
        afterFilter env (isRelayFor info) args info r meta2 := by
      simp [mirageRootQueryResolver, hscalar, hm, tryStage, hstage]
    constructor
    · intro hrelay nodes hnodes herr
      rw [hmain]
      simp [afterFilter, hrelay, hnodes, herr, exceptAuto]
    · intro hrelay herr
      rw [hmain]
      simp [afterFilter, hrelay, herr, exceptAuto]

/-- Witness for C8: with the mirage server dependency absent, the model
lookup for `Query.people` throws and the error propagates as a plain error,
not wrapped in an `AutoResolverError`. -/
theorem mirageRootQueryResolver_errorWrapping_witness :
    mirageRootQueryResolver natEnv (some natMapper) none 0 0 0 personInfo =
      .error (.plain (lookupErrorMessage none "Cannot read properties of undefined")) :=
  (mirageRootQueryResolver_errorWrapping natEnv (some natMapper) none 0 0 0 personInfo).1
    (lookupErrorMessage none "Cannot read properties of undefined") rfl rfl

/-- C9 counterexample: for the root query field `Query.total` returning the
custom scalar `FooConnection` (a scalar whose name ends in `Connection`),
with a field filter registered, the resolver returns the relay-pagination
value `7` — not the value `9` that returning the filter's result `5` through
`coerceReturnType` would produce — so a scalar field with a field filter is
not always returned through `coerceReturnType`. -/
theorem mirageRootQueryResolver_scalar_counterexample :
    mirageRootQueryResolver env9 (some mapper9) none 0 0 0 scalarConnInfo = .ok 7 ∧
    env9.coerceReturnType 5 scalarConnInfo = .ok 9 ∧
    (Except.ok 7 : Except (ResolverError Nat Nat Nat) Nat) ≠ Except.ok 9 := by
  refine ⟨rfl, rfl, ?_⟩
  intro h
  exact absurd (Except.ok.inj h) (by decide)

/-- C9 amended: for a root query field whose unwrapped return type is a
scalar, `mirageRootQueryResolver` never consults the mirage model
collections: without a field filter it throws the scalar error (recommending
a field filter) before any mirage lookup; with a field filter, the filter is
invoked with the empty list and its result flows into `afterFilter` — it is
returned through `coerceReturnType` when the scalar's name does not end in
`Connection`, and through the relay pagination coercion when it does; and in
the scalar case the outcome is independent of the mirage server
dependency. -/
theorem mirageRootQueryResolver_scalar_amended {V A C : Type} (env : MirageResolverEnv V A)
    (mapper : Option (MirageGraphQLMapper V A C)) (server : Option (MirageServer V))
    (parent : V) (args : A) (context : C) (info : FieldInfo) :
    (fieldFilterFor mapper info = none →
       isScalarType (unwrap info.returnType) = true →
       mirageRootQueryResolver env mapper server parent args context info =
         .error (.plain (scalarAutoResolveMessage info))) ∧
    (∀ filt : FieldFilter V A C, fieldFilterFor mapper info = some filt →
       isScalarType (unwrap info.returnType) = true →
       env.coerceToList env.vnull = none →
       mirageRootQueryResolver env mapper server parent args context info =
         (match filt [] parent args context info with
          | .error e => .error (.auto e (initialErrorMeta mapper parent args context info))
          | .ok r =>
            afterFilter env (isRelayFor info) args info r
              { initialErrorMeta mapper parent args context info with
                  usedFieldFilter := true })) ∧
    (∀ server2 : Option (MirageServer V), isScalarType (unwrap info.returnType) = true →
       mirageRootQueryResolver env mapper server parent args context info =
         mirageRootQueryResolver env mapper server2 parent args context info) := by
  refine ⟨?_, ?_, ?_⟩
  · intro hff hscalar
    simp [mirageRootQueryResolver, hff, hscalar]
  · intro filt hf hscalar hnull
    cases hres : filt [] parent args context info with
    | error e =>
      simp [mirageRootQueryResolver, hf, hscalar, tryStage, applyFieldFilterStage, hnull, hres]
    | ok r =>
      simp [mirageRootQueryResolver, hf, hscalar, tryStage, applyFieldFilterStage, hnull, hres]
  · intro server2 hscalar
    cases hff : fieldFilterFor mapper info with
    | none => simp [mirageRootQueryResolver, hff, hscalar]
    | some filt => simp [mirageRootQueryResolver, hff, hscalar]

/-- Witness for the amended C9: the scalar field `Query.total` of type `Int`
with the registered filter is resolved by feeding the filter the empty list
and passing its value through the coercion stage, with no mirage lookup. -/
theorem mirageRootQueryResolver_scalar_amended_witness :
    mirageRootQueryResolver env9 (some mapper9) none 0 0 0 scalarIntInfo =
      (match filter9 [] 0 0 0 scalarIntInfo with
       | .error e => .error (.auto e (initialErrorMeta (some mapper9) 0 0 0 scalarIntInfo))
       | .ok r =>
         afterFilter env9 (isRelayFor scalarIntInfo) 0 scalarIntInfo r
           { initialErrorMeta (some mapper9) 0 0 0 scalarIntInfo with
               usedFieldFilter := true }) :=
  (mirageRootQueryResolver_scalar_amended env9 (some mapper9) none 0 0 0
      scalarIntInfo).2.1 filter9 rfl rfl rfl

end GraphqlMocks
